import Mathlib

/-!
Verification development for Downshiftarr (src/Downshiftarr.py), a Plex
4K/HDR transcode guard invoked once per playback event.  The Python source
is shallowly embedded below: pure helpers become Lean functions over
`String` / `Int`; the attribute surface of external plexapi/Tautulli
objects becomes explicit records; network effects become oracle fields of
a `World` record; exceptions become `Except` / `Option` values.

Python string operations are modelled at the ASCII level (`Char.toUpper`,
`Char.isWhitespace`), which is faithful for every string the program
compares against.
-/

namespace Downshiftarr

/-! ## Python string primitives -/

/-- Uppercasing, modelling Python `str.upper` (ASCII level). -/
def pyUpper (s : String) : String := String.mk (s.toList.map Char.toUpper)

/-- Lowercasing, modelling Python `str.lower` (ASCII level). -/
def pyLower (s : String) : String := String.mk (s.toList.map Char.toLower)

/-- Drop leading and trailing whitespace from a character list. -/
def stripChars (l : List Char) : List Char :=
  ((l.dropWhile Char.isWhitespace).reverse.dropWhile Char.isWhitespace).reverse

/-- Modelling Python `str.strip()` (whitespace trim). -/
def pyStrip (s : String) : String := String.mk (stripChars s.toList)

/-- Substring occurrence on character lists (`needle` occurs inside `hay`). -/
def hasSubChars (needle : List Char) : List Char → Bool
  | [] => needle.isEmpty
  | c :: t => needle.isPrefixOf (c :: t) || hasSubChars needle t

/-- Modelling Python `needle in hay` on strings. -/
def pyContains (hay needle : String) : Bool := hasSubChars needle.toList hay.toList

/-- Python truthiness of an optional string (`None` and `""` are falsy). -/
def truthy (o : Option String) : Bool :=
  match o with
  | some s => s != ""
  | none => false

/-- Python `a or b` on optional strings: `a` when truthy, else `b` as-is. -/
def pyOr (a b : Option String) : Option String :=
  match a with
  | some s => if s = "" then b else some s
  | none => b

/-- Python `if n:` truthiness of an optional integer (`None` and `0` falsy). -/
def truthyInt (o : Option Int) : Option Int :=
  match o with
  | some n => if n = 0 then none else some n
  | none => none

/-! ## Configuration

Module-level policy knobs of the script (read once from the environment
when the module loads), modelled as an explicit record so theorems can quantify over
every configured value. -/

structure Config where
  MAX_ALLOWED_HEIGHT : Int
  PREFER_HEIGHTS : List Int
  FALLBACK_SDR_ONLY : Bool
  ALLOW_HDR_FALLBACK : Bool
  EXEMPT_USERS : List String
  KILL_ON_PLEX_CONNECT_FAIL : Bool
  KILL_ON_SESSION_NOT_FOUND : Bool
  KILL_ON_CLIENT_NOT_FOUND : Bool
  KILL_ON_NO_FALLBACK_MEDIA : Bool
  KILL_ON_SWITCH_FAIL : Bool
  KILL_ON_UNEXPECTED_ERROR : Bool
deriving DecidableEq

/-- The source defaults: MAX_ALLOWED_HEIGHT=2000, PREFER_HEIGHTS=1080,720,576,480,
FALLBACK_SDR_ONLY=1, ALLOW_HDR_FALLBACK=0, no exemptions, all kill toggles on. -/
def defaultConfig : Config where
  MAX_ALLOWED_HEIGHT := 2000
  PREFER_HEIGHTS := [1080, 720, 576, 480]
  FALLBACK_SDR_ONLY := true
  ALLOW_HDR_FALLBACK := false
  EXEMPT_USERS := []
  KILL_ON_PLEX_CONNECT_FAIL := true
  KILL_ON_SESSION_NOT_FOUND := true
  KILL_ON_CLIENT_NOT_FOUND := true
  KILL_ON_NO_FALLBACK_MEDIA := true
  KILL_ON_SWITCH_FAIL := true
  KILL_ON_UNEXPECTED_ERROR := true

/-! ## Quality classifier (source lines 440-577) -/

/-- `normalize_decision` (line 440): `(dec or "").strip().lower()`. -/
def normalize_decision (dec : Option String) : String := pyLower (pyStrip (dec.getD ""))

/-- `ALLOW_VIDEO_DECISIONS` (lines 256-260). -/
def ALLOW_VIDEO_DECISIONS : List String :=
  ["direct play", "directplay", "direct_play",
   "direct stream", "directstream", "direct_stream",
   "copy"]

/-- `is_video_transcoding` (lines 444-450): `"transcode" in d and d not in ALLOW_VIDEO_DECISIONS`. -/
def is_video_transcoding (video_decision : Option String) : Bool :=
  let d := normalize_decision video_decision
  pyContains d "transcode" && !(ALLOW_VIDEO_DECISIONS.contains d)

/-- `classify_dynamic_range` (lines 552-563). -/
def classify_dynamic_range (dr : String) : String :=
  let s := pyStrip (pyUpper dr)
  if s = "" || s = "UNKNOWN" || s = "NONE" then "UNKNOWN"
  else if pyContains s "SDR" then "SDR"
  else if pyContains s "DOVI" || pyContains s "DOLBY" || pyContains s "VISION" || s = "DV" then
    "DOLBY VISION"
  else if pyContains s "HDR" || pyContains s "HLG" then "HDR"
  else "HDR"

/-- `is_high_quality` (lines 566-577). -/
def is_high_quality (cfg : Config) (height : Option Int) (dyn_range : String) : Bool :=
  if (match height with
      | some h => decide (cfg.MAX_ALLOWED_HEIGHT ≤ h)
      | none => false) then
    true
  else
    let drc := classify_dynamic_range dyn_range
    if drc != "SDR" && drc != "UNKNOWN" then true else false

/-! ## Claim-side reference definitions for C5

These two definitions follow the words of claim C5 (and its amendment),
to be compared with the source function `classify_dynamic_range`. -/

/-- The rule list exactly as claim C5 states it: after case/space
normalisation, empty or "none" to UNKNOWN; a string containing "SDR" to
SDR (checked before the other token rules); a string containing a
DOVI/DOLBY/VISION token or equal to the token "DV" to DOLBY VISION; a
string containing "HDR" or "HLG" to HDR; any other non-empty string to
HDR. -/
def claimC5_rules (dr : String) : String :=
  let s := pyStrip (pyUpper dr)
  if s = "" || s = "NONE" then "UNKNOWN"
  else if pyContains s "SDR" then "SDR"
  else if pyContains s "DOVI" || pyContains s "DOLBY" || pyContains s "VISION" || s = "DV" then
    "DOLBY VISION"
  else if pyContains s "HDR" || pyContains s "HLG" then "HDR"
  else "HDR"

/-- Claim C5 amended: the normalised string "UNKNOWN" also maps to
UNKNOWN (the source checks `s in ("UNKNOWN", "NONE")`, not just "NONE"). -/
def claimC5_rules_amended (dr : String) : String :=
  let s := pyStrip (pyUpper dr)
  if s = "" || s = "NONE" || s = "UNKNOWN" then "UNKNOWN"
  else if pyContains s "SDR" then "SDR"
  else if pyContains s "DOVI" || pyContains s "DOLBY" || pyContains s "VISION" || s = "DV" then
    "DOLBY VISION"
  else if pyContains s "HDR" || pyContains s "HLG" then "HDR"
  else "HDR"

/-- C1: `is_high_quality h dr` is true iff `h >= MAX_ALLOWED_HEIGHT` or
`classify_dynamic_range dr` is neither SDR nor UNKNOWN; in particular
`is_high_quality h "SDR"` holds iff `h >= MAX_ALLOWED_HEIGHT`, and
`is_high_quality h "HDR"` holds for every `h`. -/
theorem C1_is_high_quality_gate (cfg : Config) (h : Option Int) (dr : String) :
    (is_high_quality cfg h dr = true ↔
      ((∃ n, h = some n ∧ cfg.MAX_ALLOWED_HEIGHT ≤ n) ∨
        (classify_dynamic_range dr ≠ "SDR" ∧ classify_dynamic_range dr ≠ "UNKNOWN"))) ∧
    (is_high_quality cfg h "SDR" = true ↔ ∃ n, h = some n ∧ cfg.MAX_ALLOWED_HEIGHT ≤ n) ∧
    is_high_quality cfg h "HDR" = true := by
  have key : ∀ d : String, is_high_quality cfg h d = true ↔
      ((∃ n, h = some n ∧ cfg.MAX_ALLOWED_HEIGHT ≤ n) ∨
        (classify_dynamic_range d ≠ "SDR" ∧ classify_dynamic_range d ≠ "UNKNOWN")) := by
    intro d
    unfold is_high_quality
    cases h with
    | none => simp
    | some n => by_cases hn : cfg.MAX_ALLOWED_HEIGHT ≤ n <;> simp [hn]
  refine ⟨key dr, ?_, ?_⟩
  · rw [key "SDR"]
    have : classify_dynamic_range "SDR" = "SDR" := by decide
    simp [this]
  · rw [key "HDR"]
    have h1 : classify_dynamic_range "HDR" = "HDR" := by decide
    simp [h1]

/-- C5 counterexample: the claim's rule list sends the non-empty tokenless
string "unknown" to HDR (via the catch-all), but the source maps the
normalised string "UNKNOWN" to UNKNOWN, so the code differs from the
claimed rules at the input "unknown". -/
theorem C5_counterexample :
    classify_dynamic_range "unknown" = "UNKNOWN" ∧
    claimC5_rules "unknown" = "HDR" ∧
    classify_dynamic_range "unknown" ≠ claimC5_rules "unknown" := by decide

/-- C5 amended: `classify_dynamic_range` is total (always one of the four
classes) and agrees everywhere with the claim's rule list once the rule
"empty, none or unknown maps to UNKNOWN" replaces "empty or none maps to
UNKNOWN"; all the concrete examples of the claim hold. -/
theorem C5_classify_amended :
    (∀ dr, classify_dynamic_range dr = claimC5_rules_amended dr) ∧
    (∀ dr, classify_dynamic_range dr = "SDR" ∨ classify_dynamic_range dr = "HDR" ∨
      classify_dynamic_range dr = "DOLBY VISION" ∨ classify_dynamic_range dr = "UNKNOWN") ∧
    (classify_dynamic_range "SDR" = "SDR" ∧ classify_dynamic_range "sdr " = "SDR" ∧
     classify_dynamic_range "  Sdr" = "SDR" ∧ classify_dynamic_range "DV" = "DOLBY VISION" ∧
     classify_dynamic_range "Dolby Vision" = "DOLBY VISION" ∧
     classify_dynamic_range "DOVI" = "DOLBY VISION" ∧
     classify_dynamic_range "" = "UNKNOWN" ∧ classify_dynamic_range "none" = "UNKNOWN" ∧
     classify_dynamic_range "HLG" = "HDR") := by
  refine ⟨?_, ?_, by decide⟩
  · intro dr
    unfold classify_dynamic_range claimC5_rules_amended
    by_cases h0 : pyStrip (pyUpper dr) = "" <;>
      by_cases h1 : pyStrip (pyUpper dr) = "UNKNOWN" <;>
        by_cases h2 : pyStrip (pyUpper dr) = "NONE" <;>
          simp [h0, h1, h2]
  · intro dr
    unfold classify_dynamic_range
    dsimp only
    set s := pyStrip (pyUpper dr) with hs
    by_cases c1 : (decide (s = "") || decide (s = "UNKNOWN") || decide (s = "NONE")) = true <;>
      by_cases c2 : pyContains s "SDR" = true <;>
        by_cases c3 : (pyContains s "DOVI" || pyContains s "DOLBY" || pyContains s "VISION" ||
          decide (s = "DV")) = true <;>
          simp [c1, c2, c3]

/-! ## plexapi media object surface

A `MediaObj` models the attribute surface that the source reads off a
plexapi Media object (`getattr` with defaults).  Numeric attributes are
stored as the `safe_int` result (lines 453-459); stringly attributes as
`str(value)` when the attribute is present. -/

structure StreamObj where
  streamType : Option Int
  height : Option Int
  DOVIPresent : Option String
  doviPresent : Option String
  dolbyVision : Option String
  colorSpace : Option String
  colorTransfer : Option String
  colorPrimaries : Option String
  hdr : Option String
deriving DecidableEq

structure PartObj where
  streams : List StreamObj
deriving DecidableEq

structure MediaObj where
  id : Option String
  selected : Bool
  height : Option Int
  videoHeight : Option Int
  videoResolution : Option String
  resolution : Option String
  videoDynamicRange : Option String
  dynamicRange : Option String
  videoDynamicRangeType : Option String
  parts : List PartObj
deriving DecidableEq

structure ItemObj where
  media : List MediaObj
deriving DecidableEq

/-- Decimal digit accumulator for `pyInt`. -/
def decDigitsGo (acc : Nat) : List Char → Option Nat
  | [] => some acc
  | c :: t => if c.isDigit then decDigitsGo (acc * 10 + (c.toNat - 48)) t else none

/-- Python `int(s)` on a string: optional sign followed by at least one
ASCII digit, surrounding whitespace tolerated; anything else raises
(modelled as `none`). -/
def pyInt (s : String) : Option Int :=
  match stripChars s.toList with
  | [] => none
  | '+' :: ds => if ds.isEmpty then none else (decDigitsGo 0 ds).map Int.ofNat
  | '-' :: ds => if ds.isEmpty then none else (decDigitsGo 0 ds).map (fun n => -(Int.ofNat n))
  | ds => (decDigitsGo 0 ds).map Int.ofNat

/-- `parse_resolution_hint` (lines 462-486). -/
def parse_resolution_hint (res : Option String) : Option Int :=
  match res with
  | none => none
  | some r =>
    if r = "" then none
    else
      let s := pyLower (pyStrip r)
      if s = "4k" || s = "uhd" || pyContains s "2160" then some 2160
      else if pyContains s "1080" then some 1080
      else if pyContains s "720" then some 720
      else if pyContains s "576" then some 576
      else if pyContains s "480" then some 480
      else
        match pyInt s with
        | some n => if 0 < n then some n else none
        | none => none

/-- Inner loop of `media_height` over the streams of one part (lines 508-513):
the first video stream (streamType == 1) with a truthy height. -/
def streamsHeight : List StreamObj → Option Int
  | [] => none
  | st :: t =>
    if st.streamType = some 1 then
      match truthyInt st.height with
      | some h => some h
      | none => streamsHeight t
    else streamsHeight t

def partsHeight : List PartObj → Option Int
  | [] => none
  | p :: t =>
    match streamsHeight p.streams with
    | some h => some h
    | none => partsHeight t

/-- `media_height` (lines 489-517). -/
def media_height (m : MediaObj) : Option Int :=
  match truthyInt m.height with
  | some h => some h
  | none =>
    match truthyInt m.videoHeight with
    | some h => some h
    | none =>
      match truthyInt (parse_resolution_hint m.videoResolution) with
      | some h => some h
      | none =>
        match truthyInt (parse_resolution_hint m.resolution) with
        | some h => some h
        | none => partsHeight m.parts

/-- One Dolby-Vision flag check (line 539): `str(v).lower() in ("1","true","yes")`;
an absent attribute gives `str(None).lower() = "none"`, never in the set. -/
def flagTrue (o : Option String) : Bool :=
  match o with
  | some v => pyLower v = "1" || pyLower v = "true" || pyLower v = "yes"
  | none => false

def streamDovi (st : StreamObj) : Bool :=
  flagTrue st.DOVIPresent || flagTrue st.doviPresent || flagTrue st.dolbyVision

/-- One colour-attribute HDR-hint check (lines 542-545): truthy value whose
uppercase form contains one of HDR/DOVI/DV/DOLBY. -/
def colorHit (o : Option String) : Bool :=
  match o with
  | some v =>
    v != "" &&
      (pyContains (pyUpper v) "HDR" || pyContains (pyUpper v) "DOVI" ||
        pyContains (pyUpper v) "DV" || pyContains (pyUpper v) "DOLBY")
  | none => false

def streamColorHDR (st : StreamObj) : Bool :=
  colorHit st.colorSpace || colorHit st.colorTransfer || colorHit st.colorPrimaries ||
    colorHit st.hdr

/-- Stream-inspection fallback of `media_dynamic_range` (lines 531-547). -/
def streamsDR : List StreamObj → Option String
  | [] => none
  | st :: t =>
    if st.streamType = some 1 then
      if streamDovi st then some "DOLBY VISION"
      else if streamColorHDR st then some "HDR"
      else streamsDR t
    else streamsDR t

def partsDR : List PartObj → Option String
  | [] => none
  | p :: t =>
    match streamsDR p.streams with
    | some d => some d
    | none => partsDR t

/-- `media_dynamic_range` (lines 520-549). -/
def media_dynamic_range (m : MediaObj) : String :=
  if truthy m.videoDynamicRange then pyStrip (pyUpper (m.videoDynamicRange.getD ""))
  else if truthy m.dynamicRange then pyStrip (pyUpper (m.dynamicRange.getD ""))
  else if truthy m.videoDynamicRangeType then pyStrip (pyUpper (m.videoDynamicRangeType.getD ""))
  else
    match partsDR m.parts with
    | some d => d
    | none => "UNKNOWN"

/-- `current_media_identity` (lines 591-606).  Note line 603 applies `str`
to a possibly missing id without a None-guard, yielding the literal string
"None". -/
def current_media_identity (item : ItemObj) : Option String × Option Int × String :=
  match item.media.find? (fun m => m.selected) with
  | some m => (m.id, media_height m, media_dynamic_range m)
  | none =>
    match item.media with
    | [] => (none, none, "UNKNOWN")
    | m0 :: _ => (some (m0.id.getD "None"), media_height m0, media_dynamic_range m0)

/-! ## Fallback selector (lines 609-699) -/

/-- `str(getattr(m, "id", "") or "")` (line 664). -/
def media_id_str (m : MediaObj) : String := m.id.getD ""

/-- `candidate_score` (lines 632-638). -/
def candidate_score (cfg : Config) (h : Int) : Int × Int :=
  if cfg.PREFER_HEIGHTS.contains h then
    ((cfg.PREFER_HEIGHTS.indexOf h : Int), -h)
  else
    ((cfg.PREFER_HEIGHTS.length : Int) + (cfg.MAX_ALLOWED_HEIGHT - h), -h)

/-- Strict lexicographic comparison of Python int pairs (the sort key). -/
def scoreLT (a b : Int × Int) : Bool :=
  if a.1 < b.1 then true else if a.1 = b.1 then decide (a.2 < b.2) else false

/-- The acceptability test of the candidate loop (lines 678-687): a strict
resolution downshift, or an equal-height move that improves a non-SDR
current rendition to SDR; with an unknown current height everything under
the threshold is acceptable. -/
def acceptable_downshift (current_height : Option Int) (cur_drc : String) (h : Int)
    (drc : String) : Bool :=
  match current_height with
  | some cur =>
    if h < cur then true
    else if cur_drc != "SDR" && drc = "SDR" && h ≤ cur then true
    else false
  | none => true

/-- One eligible fallback candidate as collected by the loop (line 692):
media-list index, height, post-processed dynamic-range string, sort key. -/
structure CandEntry where
  idx : Nat
  h : Int
  dr : String
  score : Int × Int
deriving DecidableEq

/-- One iteration of the candidate-collection loop (lines 663-692): the
filter chain applied to the media object at position `idx`; `none` models
the loop's `continue`. -/
def consider_media (cfg : Config) (current_media_id : Option String)
    (current_height : Option Int) (cur_drc : String) (sdr_only : Bool)
    (idx : Nat) (m : MediaObj) : Option CandEntry :=
  if truthy current_media_id && media_id_str m = current_media_id.getD "" then none
  else
    match media_height m with
    | none => none
    | some h =>
      if cfg.MAX_ALLOWED_HEIGHT ≤ h then none
      else
        let dr := pyStrip (pyUpper (media_dynamic_range m))
        let drc := classify_dynamic_range dr
        if sdr_only && drc != "SDR" then none
        else if acceptable_downshift current_height cur_drc h drc then
          some ⟨idx, h, dr, candidate_score cfg h⟩
        else none

/-- The candidate-collection loop of one pass (lines 662-692), with `idx`
the enumeration counter. -/
def eligible_from (cfg : Config) (current_media_id : Option String)
    (current_height : Option Int) (cur_drc : String) (sdr_only : Bool) :
    Nat → List MediaObj → List CandEntry
  | _, [] => []
  | idx, m :: rest =>
    match consider_media cfg current_media_id current_height cur_drc sdr_only idx m with
    | some e => e :: eligible_from cfg current_media_id current_height cur_drc sdr_only (idx + 1) rest
    | none => eligible_from cfg current_media_id current_height cur_drc sdr_only (idx + 1) rest

/-- All eligible candidates of one pass, in media-list order. -/
def eligible_candidates (cfg : Config) (item : ItemObj) (current_media_id : Option String)
    (current_height : Option Int) (cur_drc : String) (sdr_only : Bool) : List CandEntry :=
  eligible_from cfg current_media_id current_height cur_drc sdr_only 0 item.media

/-- Insertion step of the stable sort. -/
def insertByScore (c : CandEntry) : List CandEntry → List CandEntry
  | [] => [c]
  | d :: t => if scoreLT d.score c.score then d :: insertByScore c t else c :: d :: t

/-- `candidates.sort(key=lambda t: t[3])` (line 695).  Python's sort is
stable; any two stable sorts by the same key agree extensionally, and this
insertion sort is stable: an originally-earlier element is inserted before
every element whose key is not strictly smaller. -/
def sortByScore (l : List CandEntry) : List CandEntry := l.foldr insertByScore []

/-- One pass of the selector: collect candidates, sort, return the first
index (lines 694-697); an empty candidate list falls through. -/
def pick_from_pass (cfg : Config) (item : ItemObj) (current_media_id : Option String)
    (current_height : Option Int) (cur_drc : String) (sdr_only : Bool) : Option Nat :=
  match sortByScore (eligible_candidates cfg item current_media_id current_height cur_drc sdr_only) with
  | [] => none
  | c :: _ => some c.idx

/-- The pass loop (line 661): first pass with a non-empty candidate set wins. -/
def run_passes (cfg : Config) (item : ItemObj) (current_media_id : Option String)
    (current_height : Option Int) (cur_drc : String) : List Bool → Option Nat
  | [] => none
  | p :: ps =>
    match pick_from_pass cfg item current_media_id current_height cur_drc p with
    | some i => some i
    | none => run_passes cfg item current_media_id current_height cur_drc ps

/-- `pick_best_fallback_media_index` (lines 609-699). -/
def pick_best_fallback_media_index (cfg : Config) (item : ItemObj)
    (current_media_id : Option String) (current_height : Option Int)
    (current_dr : String) : Option Nat :=
  let cur_drc := classify_dynamic_range current_dr
  if item.media.isEmpty then none
  else
    run_passes cfg item current_media_id current_height cur_drc
      (if cfg.FALLBACK_SDR_ONLY then [true]
       else if cfg.ALLOW_HDR_FALLBACK then [true, false]
       else [false])

/-! ## Selector lemmas -/

/-- The first minimal-score element of a list (first wins on ties); this is
what taking the head of a stable ascending sort computes. -/
def firstMinByScore : List CandEntry → Option CandEntry
  | [] => none
  | c :: rest =>
    match firstMinByScore rest with
    | none => some c
    | some b => if scoreLT b.score c.score then some b else some c

theorem mem_insertByScore {x c : CandEntry} {l : List CandEntry} :
    x ∈ insertByScore c l ↔ x = c ∨ x ∈ l := by
  induction l with
  | nil => simp [insertByScore]
  | cons d t ih =>
    unfold insertByScore
    split
    · rw [List.mem_cons, ih, List.mem_cons]
      tauto
    · rw [List.mem_cons, List.mem_cons]

theorem mem_sortByScore {x : CandEntry} {l : List CandEntry} :
    x ∈ sortByScore l ↔ x ∈ l := by
  induction l with
  | nil => simp [sortByScore]
  | cons c t ih =>
    show x ∈ insertByScore c (sortByScore t) ↔ _
    rw [mem_insertByScore, ih, List.mem_cons]

theorem insertByScore_ne_nil (c : CandEntry) (l : List CandEntry) :
    insertByScore c l ≠ [] := by
  cases l with
  | nil => simp [insertByScore]
  | cons d t =>
    unfold insertByScore
    split <;> simp

theorem sortByScore_head (l : List CandEntry) :
    (sortByScore l).head? = firstMinByScore l := by
  induction l with
  | nil => rfl
  | cons c t ih =>
    show (insertByScore c (sortByScore t)).head? = _
    unfold firstMinByScore
    cases hs : sortByScore t with
    | nil =>
      have ht : firstMinByScore t = none := by rw [← ih, hs]; rfl
      rw [ht]
      rfl
    | cons d s =>
      have ht : firstMinByScore t = some d := by rw [← ih, hs]; rfl
      rw [ht]
      unfold insertByScore
      split <;> simp_all

theorem firstMinByScore_mem : ∀ {l : List CandEntry} {b : CandEntry},
    firstMinByScore l = some b → b ∈ l := by
  intro l
  induction l with
  | nil => intro b h; simp [firstMinByScore] at h
  | cons c t ih =>
    intro b h
    unfold firstMinByScore at h
    revert h
    cases hf : firstMinByScore t with
    | none =>
      intro h
      simp at h
      simp [h]
    | some d =>
      intro h
      dsimp at h
      split at h
      · have hd : d = b := Option.some.inj h
        subst hd
        exact List.mem_cons_of_mem _ (ih hf)
      · have hcb : c = b := Option.some.inj h
        simp [← hcb]

/-- Everything the filter chain guarantees about a kept candidate. -/
theorem consider_media_some {cfg : Config} {cmid : Option String} {ch : Option Int}
    {cdrc : String} {sdr : Bool} {idx : Nat} {m : MediaObj} {c : CandEntry}
    (h : consider_media cfg cmid ch cdrc sdr idx m = some c) :
    c.idx = idx ∧ media_height m = some c.h ∧ c.h < cfg.MAX_ALLOWED_HEIGHT ∧
      c.dr = pyStrip (pyUpper (media_dynamic_range m)) ∧
      c.score = candidate_score cfg c.h ∧
      ¬(truthy cmid = true ∧ media_id_str m = cmid.getD "") ∧
      (sdr = true → classify_dynamic_range c.dr = "SDR") ∧
      acceptable_downshift ch cdrc c.h (classify_dynamic_range c.dr) = true := by
  unfold consider_media at h
  split at h
  case isTrue => exact absurd h (by simp)
  case isFalse hskip =>
    revert h
    cases hh : media_height m with
    | none => intro h; exact absurd h (by simp)
    | some ht =>
      intro h
      dsimp only at h
      split at h
      case isTrue => exact absurd h (by simp)
      case isFalse hmax =>
        split at h
        case isTrue => exact absurd h (by simp)
        case isFalse hsdr =>
          split at h
          case isTrue hacc =>
            cases Option.some.inj h
            refine ⟨rfl, ?_, ?_, rfl, rfl, ?_, ?_, ?_⟩
            · simpa using hh
            · dsimp only
              omega
            · intro hand
              exact hskip (by simp [hand.1, hand.2])
            · intro hs
              by_contra hne
              exact hsdr (by simp [hs, hne])
            · simpa using hacc
          case isFalse => exact absurd h (by simp)

/-- Membership in the candidate list comes from the filter chain accepting
the media object at some position. -/
theorem eligible_from_mem (cfg : Config) (cmid : Option String) (ch : Option Int)
    (cdrc : String) (sdr : Bool) :
    ∀ (ms : List MediaObj) (k : Nat) (c : CandEntry),
      c ∈ eligible_from cfg cmid ch cdrc sdr k ms →
      ∃ j m, ms.get? j = some m ∧ consider_media cfg cmid ch cdrc sdr (k + j) m = some c := by
  intro ms
  induction ms with
  | nil => intro k c hc; simp [eligible_from] at hc
  | cons m rest ih =>
    intro k c hc
    unfold eligible_from at hc
    revert hc
    cases hcm : consider_media cfg cmid ch cdrc sdr k m with
    | some e =>
      intro hc
      rcases List.mem_cons.mp hc with h1 | h1
      · subst h1
        exact ⟨0, m, rfl, hcm⟩
      · rcases ih (k + 1) c h1 with ⟨j, m', hj, hcm'⟩
        refine ⟨j + 1, m', by simpa using hj, ?_⟩
        have he : k + (j + 1) = (k + 1) + j := by omega
        rw [he]
        exact hcm'
    | none =>
      intro hc
      rcases ih (k + 1) c hc with ⟨j, m', hj, hcm'⟩
      refine ⟨j + 1, m', by simpa using hj, ?_⟩
      have he : k + (j + 1) = (k + 1) + j := by omega
      rw [he]
      exact hcm'

/-- Every collected candidate records its own `candidate_score` and sits
strictly under the height threshold. -/
theorem eligible_from_inv (cfg : Config) (cmid : Option String) (ch : Option Int)
    (cdrc : String) (sdr : Bool) (k : Nat) (ms : List MediaObj) :
    ∀ c ∈ eligible_from cfg cmid ch cdrc sdr k ms,
      c.score = candidate_score cfg c.h ∧ c.h < cfg.MAX_ALLOWED_HEIGHT := by
  intro c hc
  rcases eligible_from_mem cfg cmid ch cdrc sdr ms k c hc with ⟨j, m, hj, hcm⟩
  rcases consider_media_some hcm with ⟨_, _, hlt, _, hscore, _⟩
  exact ⟨hscore, hlt⟩

theorem run_passes_some (cfg : Config) (item : ItemObj) (cmid : Option String)
    (ch : Option Int) (cdrc : String) (ps : List Bool) (i : Nat)
    (h : run_passes cfg item cmid ch cdrc ps = some i) :
    ∃ p ∈ ps, pick_from_pass cfg item cmid ch cdrc p = some i := by
  induction ps with
  | nil => simp [run_passes] at h
  | cons p t ih =>
    unfold run_passes at h
    revert h
    cases hp : pick_from_pass cfg item cmid ch cdrc p with
    | some j => intro h; simp at h; exact ⟨p, by simp, by rw [hp, h]⟩
    | none =>
      intro h
      rcases ih h with ⟨q, hq, hq2⟩
      exact ⟨q, by simp [hq], hq2⟩

/-! ## Claim-side reference ranking for C8 -/

/-- The ranking key exactly as claim C8 describes it: primary key is the
position of the candidate height in the configured preferred-heights list,
with every unlisted height ranking strictly after all listed heights and
unlisted heights ordered among themselves by descending height; the
secondary key is descending height.  Encoded as a lexicographic triple:
listed heights get ((0, position), -h), unlisted get ((1, -h), -h). -/
def claimC8_key (cfg : Config) (h : Int) : (Int × Int) × Int :=
  if cfg.PREFER_HEIGHTS.contains h then ((0, (cfg.PREFER_HEIGHTS.indexOf h : Int)), -h)
  else ((1, -h), -h)

/-- Strict lexicographic comparison for the claim-side key. -/
def claimC8_lt (a b : (Int × Int) × Int) : Bool :=
  if a.1.1 < b.1.1 then true
  else if a.1.1 = b.1.1 then
    (if a.1.2 < b.1.2 then true
     else if a.1.2 = b.1.2 then decide (a.2 < b.2) else false)
  else false

/-- The first-ranked candidate under the claim's ordering (first wins ties). -/
def claimC8_first_ranked (cfg : Config) : List CandEntry → Option CandEntry
  | [] => none
  | c :: rest =>
    match claimC8_first_ranked cfg rest with
    | none => some c
    | some b => if claimC8_lt (claimC8_key cfg b.h) (claimC8_key cfg c.h) then some b else some c

/-- On heights under the threshold, the code's sort key `candidate_score`
orders candidates exactly as the claim's ranking key does. -/
theorem score_claim_agree (cfg : Config) {h1 h2 : Int}
    (hh1 : h1 < cfg.MAX_ALLOWED_HEIGHT) (hh2 : h2 < cfg.MAX_ALLOWED_HEIGHT) :
    scoreLT (candidate_score cfg h1) (candidate_score cfg h2) =
      claimC8_lt (claimC8_key cfg h1) (claimC8_key cfg h2) := by
  unfold scoreLT candidate_score claimC8_lt claimC8_key
  by_cases c1 : cfg.PREFER_HEIGHTS.contains h1 = true <;>
    by_cases c2 : cfg.PREFER_HEIGHTS.contains h2 = true <;>
      simp only [c1, c2, if_true, if_false, Bool.false_eq_true, ite_true, ite_false]
  · simp
  · have m1 : h1 ∈ cfg.PREFER_HEIGHTS := by
      simpa [List.elem_iff] using c1
    have i1 : cfg.PREFER_HEIGHTS.indexOf h1 < cfg.PREFER_HEIGHTS.length :=
      List.indexOf_lt_length.mpr m1
    have : ((cfg.PREFER_HEIGHTS.indexOf h1 : Int)) <
        (cfg.PREFER_HEIGHTS.length : Int) + (cfg.MAX_ALLOWED_HEIGHT - h2) := by
      have : ((cfg.PREFER_HEIGHTS.indexOf h1 : Int)) < (cfg.PREFER_HEIGHTS.length : Int) := by
        exact_mod_cast i1
      omega
    simp [this]
  · have m2 : h2 ∈ cfg.PREFER_HEIGHTS := by
      simpa [List.elem_iff] using c2
    have i2 : cfg.PREFER_HEIGHTS.indexOf h2 < cfg.PREFER_HEIGHTS.length :=
      List.indexOf_lt_length.mpr m2
    have hgt : (cfg.PREFER_HEIGHTS.length : Int) + (cfg.MAX_ALLOWED_HEIGHT - h1) >
        ((cfg.PREFER_HEIGHTS.indexOf h2 : Int)) := by
      have : ((cfg.PREFER_HEIGHTS.indexOf h2 : Int)) < (cfg.PREFER_HEIGHTS.length : Int) := by
        exact_mod_cast i2
      omega
    have h1' : ¬ ((cfg.PREFER_HEIGHTS.length : Int) + (cfg.MAX_ALLOWED_HEIGHT - h1) <
        (cfg.PREFER_HEIGHTS.indexOf h2 : Int)) := by omega
    have h2' : ¬ ((cfg.PREFER_HEIGHTS.length : Int) + (cfg.MAX_ALLOWED_HEIGHT - h1) =
        (cfg.PREFER_HEIGHTS.indexOf h2 : Int)) := by omega
    simp [h1', h2']
  · by_cases hlt : -h1 < -h2
    · have : (cfg.PREFER_HEIGHTS.length : Int) + (cfg.MAX_ALLOWED_HEIGHT - h1) <
          (cfg.PREFER_HEIGHTS.length : Int) + (cfg.MAX_ALLOWED_HEIGHT - h2) := by omega
      simp [this, hlt]
    · have hnlt : ¬ ((cfg.PREFER_HEIGHTS.length : Int) + (cfg.MAX_ALLOWED_HEIGHT - h1) <
          (cfg.PREFER_HEIGHTS.length : Int) + (cfg.MAX_ALLOWED_HEIGHT - h2)) := by omega
      by_cases heq : h1 = h2
      · subst heq
        simp
      · have hne : ¬ ((cfg.PREFER_HEIGHTS.length : Int) + (cfg.MAX_ALLOWED_HEIGHT - h1) =
            (cfg.PREFER_HEIGHTS.length : Int) + (cfg.MAX_ALLOWED_HEIGHT - h2)) := by omega
        have hne2 : ¬ ((-h1 : Int) < -h2) := hlt
        have hne3 : ¬ ((-h1 : Int) = -h2) := by omega
        simp [hnlt, hne, hne2, hne3]

/-- On candidate lists whose entries all carry their own `candidate_score`
and sit under the threshold, the code's first-minimum coincides with the
claim's first-ranked selection. -/
theorem firstMin_eq_claimC8 (cfg : Config) :
    ∀ l : List CandEntry,
      (∀ c ∈ l, c.score = candidate_score cfg c.h ∧ c.h < cfg.MAX_ALLOWED_HEIGHT) →
      firstMinByScore l = claimC8_first_ranked cfg l := by
  intro l
  induction l with
  | nil => intro _; rfl
  | cons c t ih =>
    intro hinv
    have hinvt : ∀ c ∈ t, c.score = candidate_score cfg c.h ∧ c.h < cfg.MAX_ALLOWED_HEIGHT :=
      fun x hx => hinv x (List.mem_cons_of_mem _ hx)
    unfold firstMinByScore claimC8_first_ranked
    rw [← ih hinvt]
    cases hf : firstMinByScore t with
    | none => rfl
    | some b =>
      have hb : b ∈ t := firstMinByScore_mem hf
      have hbinv := hinvt b hb
      have hcinv := hinv c (List.mem_cons_self c t)
      dsimp only
      rw [hbinv.1, hcinv.1, score_claim_agree cfg hbinv.2 hcinv.2]

/-! ## Concrete scenario media objects -/

/-- A media object exposing only id, height and videoDynamicRange (every
other probed attribute absent), as used by the concrete scenarios below. -/
def mkMedia (idv : Option String) (ht : Option Int) (drv : Option String) : MediaObj :=
  { id := idv, selected := false, height := ht, videoHeight := none, videoResolution := none,
    resolution := none, videoDynamicRange := drv, dynamicRange := none,
    videoDynamicRangeType := none, parts := [] }

/-- Item whose sole rendition is 1080/SDR with the empty string as id. -/
def itemC2empty : ItemObj := ⟨[mkMedia (some "") (some 1080) (some "SDR")]⟩

/-- Item whose sole rendition is 1080/SDR with id "2". -/
def itemC9 : ItemObj := ⟨[mkMedia (some "2") (some 1080) (some "SDR")]⟩

/-- Item whose sole rendition is 1080/HDR with id "2". -/
def itemHdrOnly : ItemObj := ⟨[mkMedia (some "2") (some 1080) (some "HDR")]⟩

/-- C8: among the eligible candidates of a selector pass, the returned
index is exactly the first-ranked candidate under the claim's ordering:
primary key the position in the preferred-heights list, unlisted heights
strictly after all listed ones ordered by descending height, secondary key
descending height. -/
theorem C8_fallback_ranking (cfg : Config) (item : ItemObj) (cmid : Option String)
    (ch : Option Int) (cdrc : String) (sdr : Bool) :
    pick_from_pass cfg item cmid ch cdrc sdr =
      (claimC8_first_ranked cfg (eligible_candidates cfg item cmid ch cdrc sdr)).map
        CandEntry.idx := by
  unfold pick_from_pass
  have hinv : ∀ c ∈ eligible_candidates cfg item cmid ch cdrc sdr,
      c.score = candidate_score cfg c.h ∧ c.h < cfg.MAX_ALLOWED_HEIGHT :=
    eligible_from_inv cfg cmid ch cdrc sdr 0 item.media
  have hh := sortByScore_head (eligible_candidates cfg item cmid ch cdrc sdr)
  rw [firstMin_eq_claimC8 cfg _ hinv] at hh
  cases hs : sortByScore (eligible_candidates cfg item cmid ch cdrc sdr) with
  | nil =>
    rw [hs] at hh
    simp only [List.head?] at hh
    rw [← hh]
    rfl
  | cons c s =>
    rw [hs] at hh
    simp only [List.head?] at hh
    rw [← hh]
    rfl

/-- C2 counterexample: when the current media id is the empty string
(Python-falsy), the identity-exclusion check at line 665 is skipped, so the
selector can return a rendition whose identity equals the current media
id: here it returns index 0, whose id string is "" — identical to the
given current id "". -/
theorem C2_counterexample :
    pick_best_fallback_media_index defaultConfig itemC2empty (some "") (some 2160) "HDR" =
      some 0 ∧
    (itemC2empty.media.get? 0).map media_id_str = some "" := by decide

/-- C2 amended: any returned index names a rendition whose identity
differs from the current media id whenever that id is non-empty, whose
height is known and strictly below MAX_ALLOWED_HEIGHT; when
FALLBACK_SDR_ONLY is set the returned rendition classifies as SDR, and
with no eligible SDR candidate the selector returns None instead of
relaxing. -/
theorem C2_amended_selector (cfg : Config) (item : ItemObj) (cmid : Option String)
    (ch : Option Int) (cdr : String) :
    (∀ i, pick_best_fallback_media_index cfg item cmid ch cdr = some i →
      ∃ m, item.media.get? i = some m ∧
        (∀ s, cmid = some s → s ≠ "" → media_id_str m ≠ s) ∧
        (∃ hm, media_height m = some hm ∧ hm < cfg.MAX_ALLOWED_HEIGHT) ∧
        (cfg.FALLBACK_SDR_ONLY = true →
          classify_dynamic_range (pyStrip (pyUpper (media_dynamic_range m))) = "SDR")) ∧
    (cfg.FALLBACK_SDR_ONLY = true →
      eligible_candidates cfg item cmid ch (classify_dynamic_range cdr) true = [] →
      pick_best_fallback_media_index cfg item cmid ch cdr = none) := by
  constructor
  · intro i hp
    unfold pick_best_fallback_media_index at hp
    dsimp only at hp
    split at hp
    · exact absurd hp (by simp)
    · rcases run_passes_some _ _ _ _ _ _ _ hp with ⟨p, hpmem, hpick⟩
      unfold pick_from_pass at hpick
      revert hpick
      cases hs : sortByScore
          (eligible_candidates cfg item cmid ch (classify_dynamic_range cdr) p) with
      | nil => intro hpick; exact absurd hpick (by simp)
      | cons c s =>
        intro hpick
        have hci : c.idx = i := by simpa using hpick
        have hcmem : c ∈ eligible_candidates cfg item cmid ch (classify_dynamic_range cdr) p := by
          apply mem_sortByScore.mp
          rw [hs]
          exact List.mem_cons_self c s
        rcases eligible_from_mem cfg cmid ch (classify_dynamic_range cdr) p item.media 0 c
          hcmem with ⟨j, m, hj, hcm⟩
        rcases consider_media_some hcm with ⟨hidx, hmh, hlt, hdr, _, hskip, hsdr, _⟩
        have hji : j = i := by omega
        subst hji
        refine ⟨m, hj, ?_, ⟨c.h, hmh, hlt⟩, ?_⟩
        · intro s hs1 hs2 heq
          refine hskip ⟨?_, ?_⟩
          · subst hs1
            simpa [truthy] using hs2
          · subst hs1
            simpa using heq
        · intro hsdronly
          have hp' : p = true := by
            rw [hsdronly] at hpmem
            simpa using hpmem
          rw [← hdr]
          exact hsdr hp'
  · intro hsdronly hemp
    unfold pick_best_fallback_media_index
    dsimp only
    rw [hsdronly]
    split
    · rfl
    · show run_passes cfg item cmid ch (classify_dynamic_range cdr) [true] = none
      unfold run_passes pick_from_pass
      rw [hemp]
      rfl

/-- Witness for the amended C2: a concrete pick (1080/SDR candidate, id
"2", current id "1") satisfying every conclusion, and a concrete SDR-only
run with no SDR candidate returning None. -/
theorem C2_amended_selector_witness :
    (∃ m, itemC9.media.get? 0 = some m ∧
      (∀ s, (some "1" : Option String) = some s → s ≠ "" → media_id_str m ≠ s) ∧
      (∃ hm, media_height m = some hm ∧ hm < defaultConfig.MAX_ALLOWED_HEIGHT) ∧
      (defaultConfig.FALLBACK_SDR_ONLY = true →
        classify_dynamic_range (pyStrip (pyUpper (media_dynamic_range m))) = "SDR")) ∧
    pick_best_fallback_media_index defaultConfig itemHdrOnly (some "1") (some 2160) "HDR" =
      none :=
  ⟨(C2_amended_selector defaultConfig itemC9 (some "1") (some 2160) "HDR").1 0 (by decide),
   (C2_amended_selector defaultConfig itemHdrOnly (some "1") (some 2160) "HDR").2 rfl
     (by decide)⟩

/-- C9: a candidate is an acceptable downshift iff its height is strictly
below the current height, or equal to it while the dynamic range improves
from non-SDR to SDR; concretely, with current 1080/HDR and the single
candidate 1080/SDR under SDR-only mode the selector returns that
candidate. -/
theorem C9_lateral_sdr_swap :
    (∀ (cur h : Int) (cdrc drc : String),
      acceptable_downshift (some cur) cdrc h drc = true ↔
        (h < cur ∨ (h = cur ∧ cdrc ≠ "SDR" ∧ drc = "SDR"))) ∧
    pick_best_fallback_media_index defaultConfig itemC9 (some "1") (some 1080) "HDR" =
      some 0 := by
  constructor
  · intro cur h cdrc drc
    unfold acceptable_downshift
    by_cases h1 : h < cur
    · simp [h1]
    · by_cases h2 : cdrc = "SDR" <;> by_cases h3 : drc = "SDR" <;>
        simp [h1, h2, h3] <;> omega
  · decide

/-! ## Input event (lines 319-333) -/

structure InputEvent where
  rating_key : Option String
  machine_id : Option String
  username : Option String
  session_id : Option String
  session_key : Option String
  user_id : Option String
  video_decision : Option String
  video_resolution : Option String
  stream_video_resolution : Option String
  video_dynamic_range : Option String
  action : Option String
deriving DecidableEq

/-- `InputEvent()` with every field left at its None default. -/
def emptyEvent : InputEvent :=
  ⟨none, none, none, none, none, none, none, none, none, none, none⟩

/-! ## Session resolver (lines 702-797)

A `SessAttrs` record models the attribute surface `find_session` probes on
one live-session object (string attributes as `str(value)` when present,
`viewOffset` as its `safe_int`); `media` is the `.media` list of the same
object, and `hasStop` whether it exposes a callable `stop()` (both are
read later by `main` / the terminator, not during the scan). -/

structure SessAttrs where
  ratingKey : Option String
  sessionKey : Option String
  sessionObjId : Option String
  sessionIdAttr : Option String
  userPresent : Bool
  userTitle : Option String
  userUsername : Option String
  userName : Option String
  usernameAttr : Option String
  playerPresent : Bool
  playerMachineIdentifier : Option String
  playerClientIdentifier : Option String
  playerTitle : Option String
  playerName : Option String
  playerProduct : Option String
  playerAddress : Option String
  playerPort : Option String
  viewOffset : Option Int
  media : List MediaObj
  hasStop : Bool
deriving DecidableEq

/-- A session-attribute record with nothing set. -/
def emptyAttrs : SessAttrs :=
  { ratingKey := none, sessionKey := none, sessionObjId := none, sessionIdAttr := none,
    userPresent := false, userTitle := none, userUsername := none, userName := none,
    usernameAttr := none, playerPresent := false, playerMachineIdentifier := none,
    playerClientIdentifier := none, playerTitle := none, playerName := none,
    playerProduct := none, playerAddress := none, playerPort := none, viewOffset := none,
    media := [], hasStop := false }

/-- Line 725: `str(getattr(getattr(s,"session",None),"id","") or getattr(s,"sessionId","") or "")`. -/
def extract_sid (a : SessAttrs) : String :=
  let A := a.sessionObjId.getD ""
  let B := a.sessionIdAttr.getD ""
  if A != "" then A else if B != "" then B else ""

/-- Lines 728-735: username heuristics over `user.title` / `user.username` /
`user.name`, falling back to the session's own `username` attribute. -/
def extract_uname (a : SessAttrs) : String :=
  let fromUser :=
    if a.userPresent then
      if truthy a.userTitle then a.userTitle.getD ""
      else if truthy a.userUsername then a.userUsername.getD ""
      else if truthy a.userName then a.userName.getD ""
      else ""
    else ""
  if fromUser != "" then fromUser else a.usernameAttr.getD ""

/-- Lines 744-748: machine id from `player.machineIdentifier` then
`player.clientIdentifier`. -/
def extract_mid (a : SessAttrs) : String :=
  if a.playerPresent then
    if truthy a.playerMachineIdentifier then a.playerMachineIdentifier.getD ""
    else if truthy a.playerClientIdentifier then a.playerClientIdentifier.getD ""
    else ""
  else ""

/-- The per-candidate extracted values that lines 722-771 compute and the
best-payload tuple retains (`src` is the session object itself). -/
structure ScanFields where
  src : SessAttrs
  sk : String
  sid : String
  uname : String
  mid : String
  ptitle : Option String
  pproduct : Option String
  paddr : Option String
  pport : Option String
deriving DecidableEq

def extract_fields (a : SessAttrs) : ScanFields :=
  { src := a
    sk := a.sessionKey.getD ""
    sid := extract_sid a
    uname := extract_uname a
    mid := extract_mid a
    ptitle := if a.playerPresent then pyOr a.playerTitle a.playerName else none
    pproduct := if a.playerPresent then a.playerProduct else none
    paddr := if a.playerPresent then a.playerAddress else none
    pport := if a.playerPresent then a.playerPort else none }

/-- The match score of lines 754-763: start at 1000 and take the minimum
over the satisfied criteria, each guarded by Python truthiness of both
sides. -/
def session_score (ev : InputEvent) (rk sk sid uname mid : String) : Nat :=
  let s0 : Nat := 1000
  let s1 := if truthy ev.session_key && sk != "" && ev.session_key.getD "" = sk then
      min s0 0 else s0
  let s2 := if truthy ev.session_id && sid != "" && ev.session_id.getD "" = sid then
      min s1 1 else s1
  let s3 := if truthy ev.rating_key && rk != "" && ev.rating_key.getD "" = rk &&
      truthy ev.username && uname != "" && ev.username.getD "" = uname then
      min s2 5 else s2
  let s4 := if truthy ev.rating_key && rk != "" && ev.rating_key.getD "" = rk &&
      truthy ev.machine_id && mid != "" && ev.machine_id.getD "" = mid then
      min s3 10 else s3
  s4

/-- `SessionContext` (lines 336-348) as built at lines 776-787. -/
structure SessionContext where
  session_item : SessAttrs
  session_key : Option String
  session_id : Option String
  username : Option String
  machine_id : Option String
  player_title : Option String
  player_product : Option String
  player_address : Option String
  player_port : Option String
  view_offset_ms : Int
deriving DecidableEq

/-- `x or None` on an extracted string (lines 778-781). -/
def strOrNone (s : String) : Option String := if s = "" then none else some s

def build_context (f : ScanFields) : SessionContext :=
  { session_item := f.src
    session_key := strOrNone f.sk
    session_id := strOrNone f.sid
    username := strOrNone f.uname
    machine_id := strOrNone f.mid
    player_title := f.ptitle
    player_product := f.pproduct
    player_address := f.paddr
    player_port := f.pport
    view_offset_ms := (truthyInt f.src.viewOffset).getD 0 }

/-- The candidate scan of one attempt (lines 722-771), carried out inside
the attempt's try-block: a candidate whose attribute extraction raises
(modelled as a `none` entry) aborts the whole scan with an exception;
otherwise the running best (score, payload) is updated, strictly lower
scores winning. -/
def scan_sessions (ev : InputEvent) :
    List (Option SessAttrs) → Option (Nat × ScanFields) → Except Unit (Option (Nat × ScanFields))
  | [], best => .ok best
  | none :: _, _ => .error ()
  | some a :: rest, best =>
    let f := extract_fields a
    let score := session_score ev (a.ratingKey.getD "") f.sk f.sid f.uname f.mid
    let best' :=
      if score < 1000 then
        match best with
        | none => some (score, f)
        | some (bs, bf) => if score < bs then some (score, f) else some (bs, bf)
      else best
    scan_sessions ev rest best'

/-- `find_session` (lines 716-797).  The retry loop re-queries the live
session list each attempt; the successive `plex.sessions()` results are
supplied as the `attempts` list (one entry per attempt, `.error` when the
query or any candidate inspection raises is caught at line 789).  An
attempt returns a context only when some candidate matched; otherwise the
next attempt runs, and `none` is returned after the last. -/
def find_session (ev : InputEvent) :
    List (Except Unit (List (Option SessAttrs))) → Option SessionContext
  | [] => none
  | att :: rest =>
    match att with
    | .error _ => find_session ev rest
    | .ok sessions =>
      match scan_sessions ev sessions none with
      | .error _ => find_session ev rest
      | .ok (some (_, f)) => some (build_context f)
      | .ok none => find_session ev rest

/-! ## C3: extraction failures during the scan -/

/-- Event carrying only a session key. -/
def evC3 : InputEvent := { emptyEvent with session_key := some "7" }

/-- A candidate whose session key matches `evC3`. -/
def matchC3 : SessAttrs := { emptyAttrs with sessionKey := some "7" }

/-- C3 counterexample: a single attempt whose session list holds a raising
candidate followed by a candidate matching the event's session key (score
0 < 1000): the raise aborts the whole attempt's scan, so `find_session`
returns `none` instead of the later matching candidate. -/
theorem C3_counterexample :
    session_score evC3 (matchC3.ratingKey.getD "") (extract_fields matchC3).sk
        (extract_fields matchC3).sid (extract_fields matchC3).uname
        (extract_fields matchC3).mid < 1000 ∧
    find_session evC3 [Except.ok [none, some matchC3]] = none := by decide

/-- C3 amended: a candidate's attribute-extraction failure aborts the
current attempt's scan (whatever candidates follow are not examined), but
the failure is swallowed: the attempt merely counts as failed and
`find_session` proceeds with the next attempt. -/
theorem C3_amended_extraction_failure (ev : InputEvent)
    (pre post : List (Option SessAttrs)) (best : Option (Nat × ScanFields))
    (rest : List (Except Unit (List (Option SessAttrs)))) :
    scan_sessions ev (pre ++ none :: post) best = .error () ∧
    find_session ev (Except.ok (pre ++ none :: post) :: rest) = find_session ev rest := by
  have key : ∀ (pre : List (Option SessAttrs)) (best : Option (Nat × ScanFields)),
      scan_sessions ev (pre ++ none :: post) best = .error () := by
    intro pre
    induction pre with
    | nil => intro best; rfl
    | cons c t ih =>
      intro best
      cases c with
      | none => rfl
      | some a =>
        show scan_sessions ev (t ++ none :: post) _ = .error ()
        exact ih _
  refine ⟨key pre best, ?_⟩
  rw [show find_session ev (Except.ok (pre ++ none :: post) :: rest) =
      (match scan_sessions ev (pre ++ none :: post) none with
        | Except.error _ => find_session ev rest
        | Except.ok (some (s, f)) => some (build_context f)
        | Except.ok none => find_session ev rest) from rfl]
  rw [key pre none]

/-! ## Claim-side reference scoring and selection for C6 -/

/-- The score exactly as claim C6 words it: the minimum over the satisfied
criteria with values 0 (session key), 1 (session id), 5 (rating key +
username), 10 (rating key + machine id), candidates satisfying none
scoring the unmatched sentinel 1000.  Since 0 < 1 < 5 < 10, the minimum
over the satisfied set is the first satisfied criterion in that order. -/
def claimC6_score (ev : InputEvent) (rk sk sid uname mid : String) : Nat :=
  if truthy ev.session_key && sk != "" && ev.session_key.getD "" = sk then 0
  else if truthy ev.session_id && sid != "" && ev.session_id.getD "" = sid then 1
  else if truthy ev.rating_key && rk != "" && ev.rating_key.getD "" = rk &&
      truthy ev.username && uname != "" && ev.username.getD "" = uname then 5
  else if truthy ev.rating_key && rk != "" && ev.rating_key.getD "" = rk &&
      truthy ev.machine_id && mid != "" && ev.machine_id.getD "" = mid then 10
  else 1000

/-- Merge a running best (from earlier candidates) with the best of the
later candidates; the earlier one wins ties. -/
def combineBest : Option (Nat × ScanFields) → Option (Nat × ScanFields) →
    Option (Nat × ScanFields)
  | best, none => best
  | none, some r => some r
  | some (bs, bf), some (rs, rf) => if rs < bs then some (rs, rf) else some (bs, bf)

/-- The selection rule as claim C6 words it, over an extraction-failure-free
session list: exclude candidates satisfying no criterion, return the
lowest-scoring candidate, the earliest winning ties. -/
def claimC6_lowest_first (ev : InputEvent) : List SessAttrs → Option (Nat × ScanFields)
  | [] => none
  | a :: rest =>
    let f := extract_fields a
    let sc := claimC6_score ev (a.ratingKey.getD "") f.sk f.sid f.uname f.mid
    match claimC6_lowest_first ev rest with
    | none => if sc < 1000 then some (sc, f) else none
    | some (bs, bf) =>
      if sc < 1000 then
        if bs < sc then some (bs, bf) else some (sc, f)
      else some (bs, bf)

/-- The code's running-minimum score is the claim's minimum over satisfied
criteria. -/
theorem session_score_eq_claim (ev : InputEvent) (rk sk sid uname mid : String) :
    session_score ev rk sk sid uname mid = claimC6_score ev rk sk sid uname mid := by
  unfold session_score claimC6_score
  by_cases c1 : (truthy ev.session_key && sk != "" && ev.session_key.getD "" = sk) = true <;>
  by_cases c2 : (truthy ev.session_id && sid != "" && ev.session_id.getD "" = sid) = true <;>
  by_cases c3 : (truthy ev.rating_key && rk != "" && ev.rating_key.getD "" = rk &&
      truthy ev.username && uname != "" && ev.username.getD "" = uname) = true <;>
  by_cases c4 : (truthy ev.rating_key && rk != "" && ev.rating_key.getD "" = rk &&
      truthy ev.machine_id && mid != "" && ev.machine_id.getD "" = mid) = true <;>
  simp [c1, c2, c3, c4]

/-- The attempt scan computes the claim's lowest-first selection, merged
with whatever running best it starts from. -/
theorem scan_eq_claim (ev : InputEvent) :
    ∀ (l : List SessAttrs) (best : Option (Nat × ScanFields)),
      scan_sessions ev (l.map some) best =
        .ok (combineBest best (claimC6_lowest_first ev l)) := by
  intro l
  induction l with
  | nil => intro best; cases best <;> rfl
  | cons a t ih =>
    intro best
    show scan_sessions ev (some a :: t.map some) best = _
    unfold scan_sessions
    dsimp only
    rw [session_score_eq_claim, ih]
    congr 1
    conv_rhs => rw [claimC6_lowest_first]
    cases hl : claimC6_lowest_first ev t with
    | none =>
      cases best with
      | none =>
        by_cases hsc : claimC6_score ev (a.ratingKey.getD "") (extract_fields a).sk
            (extract_fields a).sid (extract_fields a).uname (extract_fields a).mid < 1000 <;>
          simp [combineBest, hsc]
      | some b =>
        rcases b with ⟨bs, bf⟩
        by_cases hsc : claimC6_score ev (a.ratingKey.getD "") (extract_fields a).sk
            (extract_fields a).sid (extract_fields a).uname (extract_fields a).mid < 1000 <;>
        by_cases hb : claimC6_score ev (a.ratingKey.getD "") (extract_fields a).sk
            (extract_fields a).sid (extract_fields a).uname (extract_fields a).mid < bs <;>
          simp [combineBest, hsc, hb]
    | some r =>
      rcases r with ⟨rs, rf⟩
      cases best with
      | none =>
        by_cases hsc : claimC6_score ev (a.ratingKey.getD "") (extract_fields a).sk
            (extract_fields a).sid (extract_fields a).uname (extract_fields a).mid < 1000 <;>
        by_cases hr : rs < claimC6_score ev (a.ratingKey.getD "") (extract_fields a).sk
            (extract_fields a).sid (extract_fields a).uname (extract_fields a).mid <;>
          simp [combineBest, hsc, hr]
      | some b =>
        rcases b with ⟨bs, bf⟩
        by_cases hsc : claimC6_score ev (a.ratingKey.getD "") (extract_fields a).sk
            (extract_fields a).sid (extract_fields a).uname (extract_fields a).mid < 1000 <;>
        by_cases hb : claimC6_score ev (a.ratingKey.getD "") (extract_fields a).sk
            (extract_fields a).sid (extract_fields a).uname (extract_fields a).mid < bs <;>
        by_cases hr : rs < claimC6_score ev (a.ratingKey.getD "") (extract_fields a).sk
            (extract_fields a).sid (extract_fields a).uname (extract_fields a).mid <;>
        by_cases hrb : rs < bs <;>
          simp [combineBest, hsc, hb, hr, hrb] <;> omega

/-- Event with session key "7", rating key "42" and username "alice". -/
def evC6 : InputEvent :=
  { emptyEvent with
    session_key := some "7"
    rating_key := some "42"
    username := some "alice" }

/-- Candidate matching `evC6` only through rating key + username (score 5). -/
def userMatchC6 : SessAttrs :=
  { emptyAttrs with
    ratingKey := some "42"
    userPresent := true
    userTitle := some "alice" }

/-- Candidate matching `evC6` through its session key (score 0). -/
def keyMatchC6 : SessAttrs :=
  { emptyAttrs with sessionKey := some "7" }

/-- C6: the scan scores each candidate as the minimum over satisfied
criteria (0/1/5/10), excludes candidates satisfying none, and returns the
lowest-scoring candidate with ties broken by encounter order; concretely,
an exact session-key match later in the list beats an earlier rating-key +
username match. -/
theorem C6_session_selection (ev : InputEvent) :
    (∀ rk sk sid uname mid, session_score ev rk sk sid uname mid =
      claimC6_score ev rk sk sid uname mid) ∧
    (∀ l : List SessAttrs, scan_sessions ev (l.map some) none =
      .ok (claimC6_lowest_first ev l)) ∧
    find_session evC6 [Except.ok [some userMatchC6, some keyMatchC6]] =
      some (build_context (extract_fields keyMatchC6)) := by
  refine ⟨fun rk sk sid uname mid => session_score_eq_claim ev rk sk sid uname mid, ?_, by decide⟩
  intro l
  rw [scan_eq_claim ev l none]
  cases claimC6_lowest_first ev l <;> rfl

/-! ## Termination tiers (lines 393-414, 873-933)

The three termination mechanisms are network effects; a `TermWorld` record
supplies their outcomes, and each embedded function also returns the trace
of termination calls it issued (the request payloads themselves are
abstracted away; the sessionId sanitisation of lines 899-901 only alters
the payload of the raw call). -/

inductive TermAction where
  | tautulliTerminate
  | stopSession
  | rawTerminate
deriving DecidableEq

/-- The `response.result` field of a parsed Tautulli API reply. -/
structure RespData where
  result : Option String
deriving DecidableEq

structure TermWorld where
  tauConfigured : Bool
  tauResp : Option RespData
  stopCallOk : Bool
  plexDirectConfigured : Bool
  rawStatusOk : Bool
deriving DecidableEq

/-- `terminate_via_tautulli` (lines 393-414): unavailable without
configuration or without a key; otherwise one API call, successful exactly
when the reply carries result == "success". -/
def terminate_via_tautulli (w : TermWorld) (session_key session_id : Option String) :
    Bool × List TermAction :=
  if !w.tauConfigured then (false, [])
  else if truthy session_key || truthy session_id then
    let ok := match w.tauResp with
      | some d => d.result == some "success"
      | none => false
    (ok, [TermAction.tautulliTerminate])
  else (false, [])

/-- The direct `/status/sessions/terminate` call (lines 894-912): skipped
without PLEX_URL / effective token / session id; otherwise succeeds on a
2xx status. -/
def raw_terminate_call (w : TermWorld) (session_id : Option String) :
    Bool × List TermAction :=
  if !w.plexDirectConfigured || !(truthy session_id) then (false, [])
  else (w.rawStatusOk, [TermAction.rawTerminate])

/-- `plex_terminate_session` (lines 873-912): try `session_item.stop()`
when the handle exposes it (an exception falls through), then the raw
call. -/
def plex_terminate_session (w : TermWorld) (session_item : Option SessAttrs)
    (session_id : Option String) : Bool × List TermAction :=
  match session_item with
  | some item =>
    if item.hasStop then
      if w.stopCallOk then (true, [TermAction.stopSession])
      else
        let r := raw_terminate_call w session_id
        (r.1, TermAction.stopSession :: r.2)
    else raw_terminate_call w session_id
  | none => raw_terminate_call w session_id

/-- Line 919: `(ctx.session_key if ctx else None) or ev.session_key`. -/
def effective_session_key (ev : InputEvent) (ctx : Option SessionContext) : Option String :=
  pyOr (ctx.bind fun c => c.session_key) ev.session_key

/-- Line 920: `(ctx.session_id if ctx else None) or ev.session_id`. -/
def effective_session_id (ev : InputEvent) (ctx : Option SessionContext) : Option String :=
  pyOr (ctx.bind fun c => c.session_id) ev.session_id

/-- `terminate_best_effort` (lines 915-933). -/
def terminate_best_effort (w : TermWorld) (ev : InputEvent) (ctx : Option SessionContext) :
    Bool × List TermAction :=
  let session_key := effective_session_key ev ctx
  let session_id := effective_session_id ev ctx
  let r1 := terminate_via_tautulli w session_key session_id
  if r1.1 then (true, r1.2)
  else
    let r2 := plex_terminate_session w (ctx.map fun c => c.session_item) session_id
    (r2.1, r1.2 ++ r2.2)

/-! ## Termination lemmas -/

theorem taut_trace_cases (w : TermWorld) (sk sid : Option String) :
    terminate_via_tautulli w sk sid = (false, []) ∨
    ∃ b, terminate_via_tautulli w sk sid = (b, [TermAction.tautulliTerminate]) := by
  unfold terminate_via_tautulli
  split
  · exact Or.inl rfl
  · split
    · exact Or.inr ⟨_, rfl⟩
    · exact Or.inl rfl

theorem taut_true_eq (w : TermWorld) (sk sid : Option String)
    (h : (terminate_via_tautulli w sk sid).1 = true) :
    terminate_via_tautulli w sk sid = (true, [TermAction.tautulliTerminate]) := by
  rcases taut_trace_cases w sk sid with h1 | ⟨b, h1⟩
  · rw [h1] at h
    simp at h
  · rw [h1] at h
    simp at h
    rw [h1, h]

/-- The Tautulli tier counts as successful exactly when it is configured,
keyed, and the reply's result field is the explicit "success" ack. -/
theorem taut_ok_iff (w : TermWorld) (sk sid : Option String) :
    (terminate_via_tautulli w sk sid).1 = true ↔
      (w.tauConfigured = true ∧ (truthy sk || truthy sid) = true ∧
        w.tauResp = some ⟨some "success"⟩) := by
  unfold terminate_via_tautulli
  by_cases h1 : w.tauConfigured = true
  · by_cases h2 : (truthy sk || truthy sid) = true
    · simp only [h1, h2, Bool.not_true, Bool.false_eq_true, if_false, if_true]
      cases hr : w.tauResp with
      | none => simp
      | some d =>
        cases d with
        | mk res => simp
    · simp [h1, h2]
  · simp [h1]

theorem raw_trace_cases (w : TermWorld) (sid : Option String) :
    raw_terminate_call w sid = (false, []) ∨
    raw_terminate_call w sid = (w.rawStatusOk, [TermAction.rawTerminate]) := by
  unfold raw_terminate_call
  split
  · exact Or.inl rfl
  · exact Or.inr rfl

theorem plex_stop_ok (w : TermWorld) (item : SessAttrs) (sid : Option String)
    (h1 : item.hasStop = true) (h2 : w.stopCallOk = true) :
    plex_terminate_session w (some item) sid = (true, [TermAction.stopSession]) := by
  unfold plex_terminate_session
  simp [h1, h2]

/-- The possible traces of the server-side terminator. -/
theorem plex_trace_cases (w : TermWorld) (item : Option SessAttrs) (sid : Option String) :
    (plex_terminate_session w item sid).2 = [] ∨
    (plex_terminate_session w item sid).2 = [TermAction.stopSession] ∨
    (plex_terminate_session w item sid).2 = [TermAction.rawTerminate] ∨
    (plex_terminate_session w item sid).2 =
      [TermAction.stopSession, TermAction.rawTerminate] := by
  have hR := raw_trace_cases w sid
  cases item with
  | none =>
    have he : plex_terminate_session w none sid = raw_terminate_call w sid := rfl
    rw [he]
    rcases hR with h | h <;> rw [h] <;> simp
  | some a =>
    by_cases h1 : a.hasStop = true
    · by_cases h2 : w.stopCallOk = true
      · rw [plex_stop_ok w a sid h1 h2]
        simp
      · have he : plex_terminate_session w (some a) sid =
            ((raw_terminate_call w sid).1,
              TermAction.stopSession :: (raw_terminate_call w sid).2) := by
          unfold plex_terminate_session
          simp [h1, h2]
        rw [he]
        rcases hR with h | h <;> rw [h] <;> simp
    · have he : plex_terminate_session w (some a) sid = raw_terminate_call w sid := by
        unfold plex_terminate_session
        simp [h1]
      rw [he]
      rcases hR with h | h <;> rw [h] <;> simp

theorem plex_raw_only_on_stop_fail (w : TermWorld) (item : Option SessAttrs)
    (sid : Option String)
    (h : TermAction.rawTerminate ∈ (plex_terminate_session w item sid).2) :
    (∀ a, item = some a → a.hasStop = false) ∨ w.stopCallOk = false := by
  cases item with
  | none =>
    left
    intro a ha
    exact absurd ha (by simp)
  | some a =>
    by_cases h1 : a.hasStop = true
    · by_cases h2 : w.stopCallOk = true
      · rw [plex_stop_ok w a sid h1 h2] at h
        exact absurd h (by decide)
      · right
        simpa using h2
    · left
      intro a2 ha2
      cases ha2
      simpa using h1

/-- The escalator either stops at a successful Tautulli tier, or falls
through to the server-side terminator with the Tautulli trace prefixed. -/
theorem tb_cases (w : TermWorld) (ev : InputEvent) (ctx : Option SessionContext) :
    ((terminate_via_tautulli w (effective_session_key ev ctx)
        (effective_session_id ev ctx)).1 = true ∧
      terminate_best_effort w ev ctx = (true, [TermAction.tautulliTerminate])) ∨
    ((terminate_via_tautulli w (effective_session_key ev ctx)
        (effective_session_id ev ctx)).1 = false ∧
      ((terminate_via_tautulli w (effective_session_key ev ctx)
          (effective_session_id ev ctx)).2 = [] ∨
        (terminate_via_tautulli w (effective_session_key ev ctx)
          (effective_session_id ev ctx)).2 = [TermAction.tautulliTerminate]) ∧
      terminate_best_effort w ev ctx =
        ((plex_terminate_session w (ctx.map fun c => c.session_item)
            (effective_session_id ev ctx)).1,
          (terminate_via_tautulli w (effective_session_key ev ctx)
            (effective_session_id ev ctx)).2 ++
          (plex_terminate_session w (ctx.map fun c => c.session_item)
            (effective_session_id ev ctx)).2)) := by
  have htb : terminate_best_effort w ev ctx =
      (if (terminate_via_tautulli w (effective_session_key ev ctx)
            (effective_session_id ev ctx)).1 then
        (true, (terminate_via_tautulli w (effective_session_key ev ctx)
          (effective_session_id ev ctx)).2)
      else
        ((plex_terminate_session w (ctx.map fun c => c.session_item)
            (effective_session_id ev ctx)).1,
          (terminate_via_tautulli w (effective_session_key ev ctx)
            (effective_session_id ev ctx)).2 ++
          (plex_terminate_session w (ctx.map fun c => c.session_item)
            (effective_session_id ev ctx)).2)) := rfl
  rcases taut_trace_cases w (effective_session_key ev ctx) (effective_session_id ev ctx)
    with h1 | ⟨b, h1⟩
  · right
    refine ⟨by rw [h1], Or.inl (by rw [h1]), ?_⟩
    rw [htb, h1]
    rfl
  · cases b with
    | true =>
      left
      refine ⟨by rw [h1], ?_⟩
      rw [htb, h1]
      rfl
    | false =>
      right
      refine ⟨by rw [h1], Or.inr (by rw [h1]), ?_⟩
      rw [htb, h1]
      rfl

/-- C7: the termination escalator attempts at most one call per tier, in
the order Tautulli, handle stop, raw terminate; the Tautulli tier counts
as successful only on an explicit success acknowledgement; the server-side
tiers run only on its failure or unavailability; the raw call runs only
when the handle stop is unavailable or failed; and no tier runs after a
successful one. -/
theorem C7_termination_escalation (w : TermWorld) (ev : InputEvent)
    (ctx : Option SessionContext) :
    (terminate_best_effort w ev ctx).2.Sublist
      [TermAction.tautulliTerminate, TermAction.stopSession, TermAction.rawTerminate] ∧
    ((terminate_via_tautulli w (effective_session_key ev ctx)
        (effective_session_id ev ctx)).1 = true ↔
      (w.tauConfigured = true ∧
        (truthy (effective_session_key ev ctx) ||
          truthy (effective_session_id ev ctx)) = true ∧
        w.tauResp = some ⟨some "success"⟩)) ∧
    ((terminate_via_tautulli w (effective_session_key ev ctx)
        (effective_session_id ev ctx)).1 = true →
      terminate_best_effort w ev ctx = (true, [TermAction.tautulliTerminate])) ∧
    ((TermAction.stopSession ∈ (terminate_best_effort w ev ctx).2 ∨
        TermAction.rawTerminate ∈ (terminate_best_effort w ev ctx).2) →
      (terminate_via_tautulli w (effective_session_key ev ctx)
        (effective_session_id ev ctx)).1 = false) ∧
    ((∃ c, ctx = some c ∧ c.session_item.hasStop = true ∧ w.stopCallOk = true) →
      TermAction.rawTerminate ∉ (terminate_best_effort w ev ctx).2) ∧
    (TermAction.rawTerminate ∈ (terminate_best_effort w ev ctx).2 →
      (∀ c, ctx = some c → c.session_item.hasStop = false) ∨ w.stopCallOk = false) := by
  have hPt := plex_trace_cases w (ctx.map fun c => c.session_item) (effective_session_id ev ctx)
  refine ⟨?_, taut_ok_iff w _ _, ?_, ?_, ?_, ?_⟩
  · rcases tb_cases w ev ctx with ⟨h1, h2⟩ | ⟨h1, hT2, h2⟩
    · rw [h2]
      decide
    · rw [h2]
      dsimp only
      rcases hT2 with h3 | h3 <;> rw [h3] <;> rcases hPt with h4 | h4 | h4 | h4 <;> rw [h4] <;>
        decide
  · intro ht
    rcases tb_cases w ev ctx with ⟨h1, h2⟩ | ⟨h1, hT2, h2⟩
    · exact h2
    · rw [ht] at h1
      exact absurd h1 (by decide)
  · intro hmem
    rcases tb_cases w ev ctx with ⟨h1, h2⟩ | ⟨h1, hT2, h2⟩
    · rw [h2] at hmem
      rcases hmem with h | h <;> exact absurd h (by decide)
    · exact h1
  · rintro ⟨c, hctx, hstop, hok⟩
    have hpx : plex_terminate_session w (ctx.map fun c2 => c2.session_item)
        (effective_session_id ev ctx) = (true, [TermAction.stopSession]) := by
      rw [hctx]
      exact plex_stop_ok w c.session_item _ hstop hok
    rcases tb_cases w ev ctx with ⟨h1, h2⟩ | ⟨h1, hT2, h2⟩
    · rw [h2]
      decide
    · rw [h2, hpx]
      rcases hT2 with h3 | h3 <;> rw [h3] <;> decide
  · intro hmem
    rcases tb_cases w ev ctx with ⟨h1, h2⟩ | ⟨h1, hT2, h2⟩
    · rw [h2] at hmem
      exact absurd hmem (by decide)
    · rw [h2] at hmem
      have hraw : TermAction.rawTerminate ∈
          (plex_terminate_session w (ctx.map fun c => c.session_item)
            (effective_session_id ev ctx)).2 := by
        rcases hT2 with h3 | h3 <;> rw [h3] at hmem <;> simpa using hmem
      rcases plex_raw_only_on_stop_fail w _ _ hraw with h | h
      · left
        intro c hc
        exact h c.session_item (by rw [hc]; rfl)
      · right
        exact h

/-- World where Tautulli is configured and acknowledges success. -/
def wTautOK : TermWorld :=
  { tauConfigured := true, tauResp := some ⟨some "success"⟩, stopCallOk := false,
    plexDirectConfigured := false, rawStatusOk := false }

/-- World where only the direct Plex termination endpoint works. -/
def wRawOnly : TermWorld :=
  { tauConfigured := false, tauResp := none, stopCallOk := false,
    plexDirectConfigured := true, rawStatusOk := true }

/-- Event carrying only a session id. -/
def evSid : InputEvent := { emptyEvent with session_id := some "9" }

/-- Witness for C7: a successful Tautulli tier stops the escalation after
one call, and a raw-terminate call in the trace implies the handle stop
was unavailable or failed. -/
theorem C7_termination_escalation_witness :
    terminate_best_effort wTautOK evC3 none = (true, [TermAction.tautulliTerminate]) ∧
    ((∀ c, (none : Option SessionContext) = some c → c.session_item.hasStop = false) ∨
      wRawOnly.stopCallOk = false) :=
  ⟨(C7_termination_escalation wTautOK evC3 none).2.2.1 (by decide),
   (C7_termination_escalation wRawOnly evSid none).2.2.2.2.2 (by decide)⟩

/-! ## Argument parsing (lines 939-1024) -/

/-- `a.startswith("--")`. -/
def startsWithDashes (a : String) : Bool := ['-', '-'].isPrefixOf a.toList

/-- `a.lstrip("-")` (line 961). -/
def lstripDashes (a : String) : String := String.mk (a.toList.dropWhile (fun c => c = '-'))

/-- `key.split("=", 1)` (line 964). -/
def splitOnceEq (k : String) : String × String :=
  (String.mk (k.toList.takeWhile (fun c => c != '=')),
   String.mk ((k.toList.dropWhile (fun c => c != '=')).drop 1))

/-- `key.replace("-", "_").strip().lower()` (line 971). -/
def normalize_key (k : String) : String :=
  pyLower (pyStrip (String.mk (k.toList.map (fun c => if c = '-' then '_' else c))))

/-- Lines 972-975: strip the value, a blank value becoming None. -/
def normalize_val (v : Option String) : Option String :=
  match v with
  | some s => if pyStrip s = "" then none else some (pyStrip s)
  | none => none

/-- The per-flag field assignment (lines 977-999); unknown keys are
ignored. -/
def assign_flag (ev : InputEvent) (key : String) (val : Option String) : InputEvent :=
  if key = "rating_key" || key = "ratingkey" then { ev with rating_key := val }
  else if key = "machine_id" || key = "machineidentifier" || key = "client_machine_id" ||
      key = "client_id" then { ev with machine_id := val }
  else if key = "username" || key = "user" then { ev with username := val }
  else if key = "session_id" || key = "sessionid" then { ev with session_id := val }
  else if key = "session_key" || key = "sessionkey" then { ev with session_key := val }
  else if key = "user_id" || key = "userid" then { ev with user_id := val }
  else if key = "video_decision" || key = "videodecision" then { ev with video_decision := val }
  else if key = "video_resolution" || key = "videoresolution" then
    { ev with video_resolution := val }
  else if key = "stream_video_resolution" || key = "streamvideoresolution" then
    { ev with stream_video_resolution := val }
  else if key = "video_dynamic_range" || key = "videodynamicrange" || key = "dynamic_range" ||
      key = "dynamicrange" then { ev with video_dynamic_range := val }
  else if key = "action" || key = "trigger" || key = "event" then { ev with action := val }
  else ev

/-- The flag-mode parsing loop (lines 952-1003) over `argv[1:]`:
`--k=v`, or `--k v` when the next token is not itself a flag (consuming
it), or `--k` alone, which assigns None. -/
def parse_flags (ev : InputEvent) : List String → InputEvent
  | [] => ev
  | [a] =>
    if !startsWithDashes a then ev
    else
      let key0 := lstripDashes a
      if key0.toList.contains '=' then
        let kv := splitOnceEq key0
        assign_flag ev (normalize_key kv.1) (normalize_val (some kv.2))
      else assign_flag ev (normalize_key key0) none
  | a :: b :: rest2 =>
    if !startsWithDashes a then parse_flags ev (b :: rest2)
    else
      let key0 := lstripDashes a
      if key0.toList.contains '=' then
        let kv := splitOnceEq key0
        parse_flags (assign_flag ev (normalize_key kv.1) (normalize_val (some kv.2))) (b :: rest2)
      else
        if !startsWithDashes b then
          parse_flags (assign_flag ev (normalize_key key0) (normalize_val (some b))) rest2
        else parse_flags (assign_flag ev (normalize_key key0) none) (b :: rest2)

/-- `parse_args` (lines 939-1024): flag mode when any of `argv[1:]` starts
with "--"; else legacy positional mode, which raises SystemExit with a
usage string (modelled as `.error`) when fewer than 8 arguments are
given. -/
def parse_args (argv : List String) : Except String InputEvent :=
  if (argv.drop 1).any (fun a => startsWithDashes a) then
    .ok (parse_flags emptyEvent (argv.drop 1))
  else
    match argv with
    | _ :: a1 :: a2 :: a3 :: a4 :: a5 :: a6 :: a7 :: rest =>
      .ok { rating_key := some a1, machine_id := some a2, username := some a3,
            session_id := some a4, session_key := none, user_id := some a5,
            video_decision := some a7, video_resolution := none,
            stream_video_resolution := some a6,
            video_dynamic_range := rest.head?, action := none }
    | _ => .error "usage"

/-! ## Main policy body (lines 1046-1172)

Network effects are supplied by a `World` oracle: whether the Plex
connection succeeds, the successive session-list snapshots, the
`fetch_library_item` outcome, whether a controllable client is found, and
whether `client.playMedia` succeeds.  The trace records media-server
contacts and enforcement actions; logging and Tautulli notifications are
not traced. -/

inductive MainAction where
  | connectPlex
  | sessionsQuery
  | fetchItem
  | findClient
  | playMedia
  | seekTo
  | terminate (t : TermAction)
deriving DecidableEq

deriving instance DecidableEq for Except

structure World where
  connectOk : Bool
  sessionSnapshots : List (Except Unit (List (Option SessAttrs)))
  libraryItem : Except Unit ItemObj
  clientFound : Bool
  playMediaOk : Bool
  term : TermWorld
deriving DecidableEq

/-- One enforcement step: terminate when the per-failure toggle is on. -/
def kill_trace (w : World) (toggle : Bool) (ev : InputEvent) (ctx : Option SessionContext) :
    List MainAction :=
  if toggle then (terminate_best_effort w.term ev ctx).2.map MainAction.terminate else []

/-- The switch stage (lines 1121-1161): locate a client, then issue
playMedia; a non-zero resume offset is followed by a best-effort seek
whose failures are swallowed (lines 1144-1152) and cannot change the exit
code. -/
def mainSwitch (cfg : Config) (w : World) (ev : InputEvent) (ctx : SessionContext)
    (base : List MainAction) : Nat × List MainAction :=
  if !w.clientFound then
    (0, base ++ [MainAction.findClient] ++
      kill_trace w cfg.KILL_ON_CLIENT_NOT_FOUND ev (some ctx))
  else if w.playMediaOk then
    (0, base ++ [MainAction.findClient, MainAction.playMedia] ++
      (if 0 < ctx.view_offset_ms then [MainAction.seekTo] else []))
  else
    (0, base ++ [MainAction.findClient, MainAction.playMedia] ++
      kill_trace w cfg.KILL_ON_SWITCH_FAIL ev (some ctx))

/-- The policy body of `main` (lines 1046-1161) after argument parsing. -/
def mainPolicy (cfg : Config) (w : World) (ev : InputEvent) : Nat × List MainAction :=
  if truthy ev.username && cfg.EXEMPT_USERS.contains (ev.username.getD "") then (0, [])
  else if !is_video_transcoding ev.video_decision then (0, [])
  else if !w.connectOk then
    (0, MainAction.connectPlex :: kill_trace w cfg.KILL_ON_PLEX_CONNECT_FAIL ev none)
  else
    match find_session ev w.sessionSnapshots with
    | none =>
      (0, MainAction.connectPlex :: MainAction.sessionsQuery ::
        kill_trace w cfg.KILL_ON_SESSION_NOT_FOUND ev none)
    | some ctx =>
      let base := [MainAction.connectPlex, MainAction.sessionsQuery]
      let cmi := current_media_identity ⟨ctx.session_item.media⟩
      let cur_drc := classify_dynamic_range cmi.2.2
      if !is_high_quality cfg cmi.2.1 cmi.2.2 then (0, base)
      else if (match cmi.2.1 with
          | some h => decide (h < cfg.MAX_ALLOWED_HEIGHT)
          | none => false) && cur_drc == "SDR" then (0, base)
      else
        match pick_best_fallback_media_index cfg ⟨ctx.session_item.media⟩ cmi.1 cmi.2.1
          cmi.2.2 with
        | some _ => mainSwitch cfg w ev ctx base
        | none =>
          if truthy ev.rating_key then
            match w.libraryItem with
            | .error _ =>
              (0, base ++ [MainAction.fetchItem] ++
                kill_trace w cfg.KILL_ON_NO_FALLBACK_MEDIA ev (some ctx))
            | .ok item2 =>
              match pick_best_fallback_media_index cfg item2 cmi.1 cmi.2.1 cmi.2.2 with
              | some _ => mainSwitch cfg w ev ctx (base ++ [MainAction.fetchItem])
              | none =>
                (0, base ++ [MainAction.fetchItem] ++
                  kill_trace w cfg.KILL_ON_NO_FALLBACK_MEDIA ev (some ctx))
          else (0, base ++ kill_trace w cfg.KILL_ON_NO_FALLBACK_MEDIA ev (some ctx))

/-- `main` (lines 1046-1047): parse, then the policy body; a SystemExit
raised by `parse_args` propagates out of `main`. -/
def mainEntry (cfg : Config) (w : World) (argv : List String) :
    Except String (Nat × List MainAction) :=
  (parse_args argv).map (mainPolicy cfg w)

/-- The `__main__` guard (lines 1164-1172): `sys.exit(main(sys.argv))`
with SystemExit re-raised; a SystemExit carrying the usage string makes
the process exit with status 1.  (The guard's final branch for other
exceptions cannot fire in this total model.) -/
def script_exit_code (cfg : Config) (w : World) (argv : List String) : Nat :=
  match mainEntry cfg w argv with
  | .ok r => r.1
  | .error _ => 1

/-- Every branch of the policy body returns exit code 0. -/
theorem mainPolicy_exit_zero (cfg : Config) (w : World) (ev : InputEvent) :
    (mainPolicy cfg w ev).1 = 0 := by
  unfold mainPolicy mainSwitch
  dsimp only
  repeat' split
  all_goals rfl

/-- An arbitrary concrete oracle for closed instances. -/
def world0 : World :=
  { connectOk := false, sessionSnapshots := [], libraryItem := .error (),
    clientFound := false, playMediaOk := false, term := wRawOnly }

/-- C4 counterexample: positional mode with fewer than 8 arguments raises
SystemExit with a usage string (lines 1006-1010); the `__main__` guard
re-raises SystemExit (lines 1167-1168), so the process exits 1 even
though the unhandled-exception safety net (lines 1169-1172) never fired —
against the claim that only that guard produces a non-zero exit. -/
theorem C4_counterexample :
    script_exit_code defaultConfig world0 ["Downshiftarr.py", "12", "m1", "alice"] = 1 := by
  rfl

/-- C4 amended: for every invocation whose arguments parse (flag mode, or
positional mode with at least 8 arguments), the process exit code is 0
under every oracle outcome — covering every policy outcome and every
escalated failure stage; the positional usage error instead exits
non-zero via SystemExit passing through the guard. -/
theorem C4_exit_codes (cfg : Config) (w : World) (argv : List String) (ev : InputEvent)
    (h : parse_args argv = .ok ev) :
    script_exit_code cfg w argv = 0 := by
  unfold script_exit_code mainEntry
  rw [h]
  exact mainPolicy_exit_zero cfg w ev

/-- Witness for the amended C4: a parsed flag-mode invocation exits 0. -/
theorem C4_exit_codes_witness :
    script_exit_code defaultConfig world0 ["Downshiftarr.py", "--video-decision=transcode"] = 0 :=
  C4_exit_codes defaultConfig world0 ["Downshiftarr.py", "--video-decision=transcode"]
    { emptyEvent with video_decision := some "transcode" } (by rfl)

/-- C10: enforcement is gated solely on the "transcode" substring:
`is_video_transcoding` equals the substring test on the trimmed lowercased
decision, since no allow-list entry contains "transcode"; and whenever the
decision lacks the substring — empty, missing or unrecognized — the policy
body returns exit code 0 with an empty trace: no media-server contact and
no enforcement action. -/
theorem C10_transcode_gate :
    (∀ d : Option String,
      is_video_transcoding d = pyContains (normalize_decision d) "transcode") ∧
    (∀ (cfg : Config) (w : World) (ev : InputEvent),
      pyContains (normalize_decision ev.video_decision) "transcode" = false →
      is_video_transcoding ev.video_decision = false ∧ mainPolicy cfg w ev = (0, [])) := by
  have hgen : ∀ d : Option String,
      is_video_transcoding d = pyContains (normalize_decision d) "transcode" := by
    intro d
    unfold is_video_transcoding
    dsimp only
    cases hc : pyContains (normalize_decision d) "transcode" with
    | false => simp
    | true =>
      have hmem : ALLOW_VIDEO_DECISIONS.contains (normalize_decision d) = false := by
        cases hm : ALLOW_VIDEO_DECISIONS.contains (normalize_decision d) with
        | false => rfl
        | true =>
          exfalso
          have hin : normalize_decision d ∈ ALLOW_VIDEO_DECISIONS := by
            simpa [List.elem_iff] using hm
          simp only [ALLOW_VIDEO_DECISIONS, List.mem_cons, List.not_mem_nil, or_false] at hin
          rcases hin with h | h | h | h | h | h | h <;> rw [h] at hc <;>
            exact absurd hc (by decide)
      rw [hmem]
      rfl
  refine ⟨hgen, ?_⟩
  intro cfg w ev h
  have hvt : is_video_transcoding ev.video_decision = false := by
    rw [hgen]
    exact h
  refine ⟨hvt, ?_⟩
  unfold mainPolicy
  split
  · rfl
  · split
    · rfl
    · rename_i h2
      exact absurd (by rw [hvt]; rfl : (!is_video_transcoding ev.video_decision) = true) h2

/-- Witness for C10: a "direct play" event yields no transcode flag, exit
code 0 and an empty trace. -/
theorem C10_transcode_gate_witness :
    is_video_transcoding (some "direct play") = false ∧
    mainPolicy defaultConfig world0 { emptyEvent with video_decision := some "direct play" } =
      (0, []) :=
  C10_transcode_gate.2 defaultConfig world0
    { emptyEvent with video_decision := some "direct play" } (by decide)

end Downshiftarr
